import Mathlib
/-!
Verification development for the multi-tenant job-application automation
workflow (built by `src/scripts/build_workflow.py`).  The program under
study is the n8n workflow that the builder emits: its logic lives in the
embedded JavaScript `code` nodes, the Postgres queries, the `if`/`switch`
gates, and the connection graph wiring them together.  Each definition
below is a shallow embedding of one node (or one contiguous chain of
nodes); the doc comments name the nodes being modelled.

Database rows are modelled as Lean structures, tables as lists, and the
whole persistent state as a `DB` record.  SQL `INSERT ... ON CONFLICT`,
`UPDATE ... WHERE`, and `SELECT ... LIMIT 1` become list operations.
Timestamps are integers (seconds); `NOW()` is an explicit `now` argument.
-/

namespace JobAutomation
/-- Row of the `users` table (columns read by `Postgres - Validate User`):
`user_id, email_mode, hourly_email_limit, daily_email_limit, api_key_hash`.
Nullable columns are `Option`s. -/
structure UserRow where
  userId : String
  emailMode : String
  hourlyLimit : Option Nat
  dailyLimit : Option Nat
  apiKeyHash : Option String
  fullName : String := ""
  rawResumeText : String := ""
  deriving Repr, DecidableEq
/-- Row of the `jobs` table (fields touched by `Postgres - Save Fit` and
`Postgres - Update Job Status`). -/
structure JobRow where
  jobId : String
  fitScore : Option Int
  status : String
  deriving Repr, DecidableEq
/-- Row of the `applications` table (fields touched by
`Postgres - Upsert Application`, `Postgres - Save Email Draft` and
`Postgres - Mark App Sent`). -/
structure AppRow where
  appId : String
  userId : String
  jobId : String
  resumeVersion : Nat
  tailoredResumeText : String
  emailSubject : String
  emailBody : String
  status : String
  deriving Repr, DecidableEq
/-- Row of the `email_dispatch_log` table (columns used by the dispatch
chain: `user_id, job_id, application_id, recipient_email, subject,
email_body_hash, sent_status, created_at`). -/
structure DispatchRow where
  userId : String
  jobId : String
  appId : String
  recipient : String
  subject : String
  emailBodyHash : String
  sentStatus : String
  createdAt : Int
  deriving Repr, DecidableEq
/-- Row of the `inbound_email_log` table (columns used by
`Postgres - Check Inbound Dup` and `Postgres - Log Inbound`). -/
structure InboundRow where
  userId : String
  threadId : String
  messageId : String
  senderEmail : String
  replyType : String
  deriving Repr, DecidableEq
/-- Row of the `workflow_logs` audit table (`user_id, module_name, status,
input_summary/output_summary` collapsed into one `summary` field). -/
structure AuditRow where
  userId : String
  moduleName : String
  status : String
  summary : String
  deriving Repr, DecidableEq
/-- The persistent state: the relational tables the workflow touches. -/
structure DB where
  users : List UserRow
  jobs : List JobRow
  applications : List AppRow
  dispatchLog : List DispatchRow
  inboundLog : List InboundRow
  auditLog : List AuditRow
  deriving Repr, DecidableEq
/-- Model of `crypto.createHash("sha256").update(s).digest("hex")` in
`Compute - Email Hash`: sha256 is modelled as an injective function of its
input string (collision-freeness idealised), so we use the input itself. -/
def sha256hex (s : String) : String := s
/-- `Compute - Email Hash`: `hash = sha256(subj + body)` where
`subj = humanized_subject || email_subject || ""` and
`body = humanized_body || email_body_long || ""`. -/
def emailBodyHash (subj body : String) : String := sha256hex (subj ++ body)
/-- JavaScript `x || d` on a nullable numeric column (`Check - Rate Limit`:
`hourly_email_limit || 10`, `daily_email_limit || 50`): SQL `NULL` and the
JS-falsy `0` both fall back to the default. -/
def jsOrDefault (x : Option Nat) (d : Nat) : Nat :=
  match x with
  | none => d
  | some n => if n = 0 then d else n
/-- Shared shape of both sub-selects of `Postgres - Count Recent Sends`:
`COUNT(*) FROM email_dispatch_log WHERE user_id = uid AND
sent_status = 'SENT' AND created_at > NOW() - INTERVAL w`. -/
def recentCount (log : List DispatchRow) (uid : String) (now w : Int) : Nat :=
  log.countP fun r =>
    r.userId == uid && r.sentStatus == "SENT" && decide (r.createdAt > now - w)
/-- `Postgres - Count Recent Sends`, hourly sub-select
(`INTERVAL '1 hour'`). -/
def hourlyCount (log : List DispatchRow) (uid : String) (now : Int) : Nat :=
  recentCount log uid now 3600
/-- `Postgres - Count Recent Sends`, daily sub-select
(`INTERVAL '1 day'`). -/
def dailyCount (log : List DispatchRow) (uid : String) (now : Int) : Nat :=
  recentCount log uid now 86400
/-- Count of SENT rows for a tenant inside the trailing window `(t - w, t]`.
This is the spec's "trailing window" reading: at any moment `t` only rows
created at or before `t` exist, so the code's one-sided query evaluated at
`t` coincides with this two-sided count (`hourlyCount_eq_trailing`). -/
def trailingCount (log : List DispatchRow) (uid : String) (t w : Int) : Nat :=
  log.countP fun r =>
    r.userId == uid && r.sentStatus == "SENT" &&
      (decide (r.createdAt > t - w) && decide (r.createdAt ≤ t))
/-- Number of SENT dispatch-log rows for a given (tenant, job, content-hash)
key: the quantity the idempotency invariant bounds by one. -/
def sentKeyCount (log : List DispatchRow) (uid jid h : String) : Nat :=
  log.countP fun r =>
    r.userId == uid && r.jobId == jid && r.emailBodyHash == h &&
      r.sentStatus == "SENT"
/-- The idempotency-ledger invariant: no two distinct SENT rows share a
(tenant, job, content-hash) key. -/
def atMostOneSent (log : List DispatchRow) : Prop :=
  log.Pairwise fun r s =>
    r.sentStatus = "SENT" → s.sentStatus = "SENT" →
      ¬(r.userId = s.userId ∧ r.jobId = s.jobId ∧ r.emailBodyHash = s.emailBodyHash)
/-- A normalized dispatch request: the `{recipient, subject, body, tenant,
job, application}` payload that all four call sites feed into
`Check - Rate Limit`, together with the tenant's cap columns. -/
structure DispatchReq where
  userId : String
  jobId : String
  appId : String
  hourlyLimit : Option Nat
  dailyLimit : Option Nat
  subject : String
  body : String
  recipient : String
  deriving Repr, DecidableEq
/-- Observable outcome of one run of the dispatch chain. -/
inductive DispatchOutcome where
  /-- `Set - Dispatch OK` was reached (`status: "success"`). -/
  | sent
  /-- `Set - Skipped` was reached (`status: "skipped", reason:
  "duplicate_email"`). -/
  | skipped
  /-- `Validate - Rate Limit` threw (`RATE_LIMITED: ...`). -/
  | rateLimited (msg : String)
  /-- the injected failure point was hit and the execution died there. -/
  | crashed
  deriving Repr, DecidableEq
/-- A failure-injection point: the chain executes nodes in order and dies
just before the named node.  `noFail` is the normal run. -/
inductive FailPoint where
  | noFail
  | beforeRateQuery
  | beforeSend
  | beforeLogSend
  | beforeMarkApp
  | beforeAudit
  deriving Repr, DecidableEq
/-- Result of one run of the dispatch chain: outcome, the provider send
calls actually performed (`Gmail - Send Email` invocations, as
recipient/subject/body triples), and the final database. -/
structure DispatchResult where
  outcome : DispatchOutcome
  sends : List (String × String × String)
  db : DB
  deriving Repr, DecidableEq
/-- The dispatch-log row inserted by `Postgres - Log Send` (values clause:
user, job, application, recipient, subject, content hash, `'SENT'`, now). -/
def sentRow (req : DispatchReq) (now : Int) : DispatchRow :=
  ⟨req.userId, req.jobId, req.appId, req.recipient, req.subject,
    emailBodyHash req.subject req.body, "SENT", now⟩
/-- The audit row written by `Log - Skipped Duplicate`. -/
def skippedAudit (req : DispatchReq) : AuditRow :=
  ⟨req.userId, "email_dispatch", "SKIPPED", "duplicate_email"⟩
/-- The key predicate of the `ON CONFLICT (user_id, job_id, email_body_hash)`
unique constraint backing `Postgres - Log Send`. -/
def keyMatch (req : DispatchReq) (r : DispatchRow) : Bool :=
  r.userId == req.userId && r.jobId == req.jobId &&
    r.emailBodyHash == emailBodyHash req.subject req.body
/-- `Check - Rate Limit` + `Postgres - Count Recent Sends` +
`Validate - Rate Limit`: resolve the caps (`hourly_email_limit || 10`,
`daily_email_limit || 50`), count recent SENT rows, and throw
(`some errKind`) when a count has reached its cap — hourly checked first,
exactly as in the node's code. -/
def rateCheck (db : DB) (req : DispatchReq) (now : Int) : Option String :=
  let hl := jsOrDefault req.hourlyLimit 10
  let dl := jsOrDefault req.dailyLimit 50
  if hourlyCount db.dispatchLog req.userId now ≥ hl then some "hourly"
  else if dailyCount db.dispatchLog req.userId now ≥ dl then some "daily"
  else none
/-- `Postgres - Check Duplicate` + `IF - Already Sent`: `SELECT log_id FROM
email_dispatch_log WHERE user_id = .. AND job_id = .. AND
email_body_hash = .. AND sent_status = 'SENT' LIMIT 1`, then the IF node's
`log_id isNotEmpty` test. -/
def alreadySent (db : DB) (req : DispatchReq) : Bool :=
  db.dispatchLog.any fun r => keyMatch req r && r.sentStatus == "SENT"
/-- `Postgres - Log Send`: `INSERT INTO email_dispatch_log ... 'SENT') ON
CONFLICT (user_id, job_id, email_body_hash) DO NOTHING`. -/
def logSend (db : DB) (req : DispatchReq) (now : Int) : DB :=
  if db.dispatchLog.any (keyMatch req) then db
  else { db with dispatchLog := db.dispatchLog ++ [sentRow req now] }
/-- `Postgres - Mark App Sent`: `UPDATE applications SET status='SENT',
sent_at=NOW() WHERE application_id = appId`. -/
def markAppSent (db : DB) (appId : String) : DB :=
  { db with applications := db.applications.map fun a =>
      if a.appId == appId then { a with status := "SENT" } else a }
/-- The shared email dispatch chain, nodes `Check - Rate Limit` →
`Postgres - Count Recent Sends` → `Validate - Rate Limit` →
`Compute - Email Hash` → `Postgres - Check Duplicate` →
`IF - Already Sent` → (`Log - Skipped Duplicate` → `Set - Skipped` |
`Gmail - Send Email` → `Postgres - Log Send` → `Postgres - Mark App Sent`
→ `Log - Dispatch Success` → `Set - Dispatch OK`), per the connection
graph.  `fp` injects a crash just before the named step. -/
def dispatchChain (fp : FailPoint) (db : DB) (req : DispatchReq) (now : Int) :
    DispatchResult :=
  if fp == .beforeRateQuery then ⟨.crashed, [], db⟩ else
  match rateCheck db req now with
  | some m => ⟨.rateLimited m, [], db⟩
  | none =>
    if alreadySent db req then
      -- Log - Skipped Duplicate (workflow_logs SKIPPED) → Set - Skipped
      ⟨.skipped, [], { db with auditLog := db.auditLog ++ [skippedAudit req] }⟩
    else if fp == .beforeSend then ⟨.crashed, [], db⟩ else
    -- Gmail - Send Email
    let sends := [(req.recipient, req.subject, req.body)]
    if fp == .beforeLogSend then ⟨.crashed, sends, db⟩ else
    let db1 := logSend db req now
    if fp == .beforeMarkApp then ⟨.crashed, sends, db1⟩ else
    let db2 := markAppSent db1 req.appId
    if fp == .beforeAudit then ⟨.crashed, sends, db2⟩ else
    -- Log - Dispatch Success → Set - Dispatch OK
    ⟨.sent, sends,
      { db2 with auditLog := db2.auditLog ++
          [⟨req.userId, "email_dispatch", "SUCCESS", req.recipient⟩] }⟩
/-! Job Analysis fit gate and the high-fit tailoring segment
(`Postgres - Save Fit` → `IF - High Fit` → … → `IF - Auto Send`). -/

/-- Model of JavaScript `Math.round` as used in `Validate - Fit`
(`p.fit_score = Math.round(p.fit_score)`): floor of `x + 1/2`, ties
rounding toward positive infinity. -/
def jsRound (q : ℚ) : Int := ⌊q + 1 / 2⌋
/-- `Validate - Fit`: after JSON-parsing the completion output, reject a
`fit_score` outside `[0, 100]` (`p.fit_score < 0 || p.fit_score > 100`)
and round the accepted value.  A non-numeric score is excluded by the
input type, mirroring the `typeof !== "number"` check. -/
def validateFit (q : ℚ) : Except String Int :=
  if q < 0 ∨ q > 100 then Except.error "fit_score must be 0-100"
  else Except.ok (jsRound q)
/-- The `CASE WHEN s >= 75 THEN 'ANALYZED' ELSE 'LOW_FIT' END` expression
of `Postgres - Save Fit`. -/
def saveFitStatus (score : Int) : String :=
  if score ≥ 75 then "ANALYZED" else "LOW_FIT"
/-- `Postgres - Save Fit`: `UPDATE jobs SET fit_score = s, ...,
status = CASE WHEN s >= 75 THEN 'ANALYZED' ELSE 'LOW_FIT' END
WHERE job_id = jid`. -/
def saveFit (db : DB) (jid : String) (score : Int) : DB :=
  { db with jobs := db.jobs.map fun j =>
      if j.jobId == jid then
        { j with fitScore := some score, status := saveFitStatus score }
      else j }
/-- `IF - High Fit`: `fit_score largerEqual 75`. -/
def highFit (score : Int) : Bool := score ≥ 75
/-- The JSON response envelope assembled by the terminal `Set - *` nodes;
fields not set by a given node stay `none`. -/
structure Response where
  status : String
  moduleName : Option String := none
  applicationId : Option String := none
  fitScore : Option Int := none
  reason : Option String := none
  deriving Repr, DecidableEq
/-- The `CASE WHEN email_mode = 'AUTO' THEN 'READY' ELSE 'PENDING_REVIEW'
END` expression of `Postgres - Upsert Application`. -/
def appUpsertStatus (emailMode : String) : String :=
  if emailMode == "AUTO" then "READY" else "PENDING_REVIEW"
/-- `Postgres - Upsert Application`: `INSERT INTO applications (user_id,
job_id, tailored_resume_text, ..., status) VALUES (...) ON CONFLICT
(user_id, job_id, resume_version) DO UPDATE SET tailored_resume_text =
EXCLUDED..., status = EXCLUDED.status RETURNING application_id`.
`resume_version` is absent from the column list, so an inserted row
carries the column default (1).  Returns the new database together with
the `application_id` the query returns (the existing row's id on
conflict). -/
def upsertApplication (db : DB) (uid jid text emailMode newAppId : String) :
    DB × String :=
  match db.applications.find? (fun a =>
      a.userId == uid && a.jobId == jid && a.resumeVersion == 1) with
  | some existing =>
    ({ db with applications := db.applications.map fun a =>
        if a.userId == uid && a.jobId == jid && a.resumeVersion == 1 then
          { a with tailoredResumeText := text,
                   status := appUpsertStatus emailMode }
        else a },
      existing.appId)
  | none =>
    ({ db with applications := db.applications ++
        [⟨newAppId, uid, jid, 1, text, "", "", appUpsertStatus emailMode⟩] },
      newAppId)
/-- `Postgres - Save Email Draft`: `UPDATE applications SET email_subject,
email_body_long, ... WHERE application_id = appId`. -/
def saveEmailDraft (db : DB) (appId subj body : String) : DB :=
  { db with applications := db.applications.map fun a =>
      if a.appId == appId then
        { a with emailSubject := subj, emailBody := body }
      else a }
/-- Result of the tailoring segment: the response envelope (or the thrown
error), whether `IF - Auto Send` routed into the dispatch chain, the
application id returned by the upsert, and the final database. -/
structure TailorResult where
  response : Except String Response
  enteredDispatch : Bool
  appIdRet : String
  db : DB
  deriving Repr
/-- The high-fit branch from `Postgres - Upsert Application` through
`Postgres - Save Email Draft` to `IF - Auto Send`, which either feeds the
shared dispatch chain (`email_mode = AUTO`) or runs `Log - Draft Saved` →
`Set - Draft OK`.  `subj`/`body` are the humanized email fields produced
by `Validate - Email`. -/
def tailorAndGate (db : DB) (user : UserRow) (jid newAppId resumeText
    subj body recipient : String) (now : Int) : TailorResult :=
  let up := upsertApplication db user.userId jid resumeText user.emailMode newAppId
  let db2 := saveEmailDraft up.1 up.2 subj body
  if user.emailMode == "AUTO" then
    let r := dispatchChain .noFail db2
      ⟨user.userId, jid, up.2, user.hourlyLimit, user.dailyLimit,
        subj, body, recipient⟩ now
    { response :=
        match r.outcome with
        | .sent => Except.ok ⟨"success", some "email_dispatch", none, none, none⟩
        | .skipped => Except.ok ⟨"skipped", none, none, none, some "duplicate_email"⟩
        | .rateLimited m => Except.error ("RATE_LIMITED: " ++ m)
        | .crashed => Except.error "crashed"
      enteredDispatch := true
      appIdRet := up.2
      db := r.db }
  else
    { response := Except.ok
        ⟨"draft_saved", some "email_draft", some up.2, none, none⟩
      enteredDispatch := false
      appIdRet := up.2
      db := { db2 with auditLog := db2.auditLog ++
          [⟨user.userId, "email_draft", "SUCCESS", "draft"⟩] } }
/-- Result of the fit gate: response, which branch `IF - High Fit` took,
whether the run went on into the dispatch chain, and the final
database. -/
structure FitGateResult where
  response : Except String Response
  enteredTailoring : Bool
  enteredDispatch : Bool
  db : DB
  deriving Repr
/-- `Postgres - Save Fit` → `IF - High Fit` → (tailoring segment |
`Log - Low Fit` → `Set - Low Fit OK`), per the connection graph. -/
def jobFitGate (db : DB) (user : UserRow) (jid : String) (score : Int)
    (newAppId resumeText subj body recipient : String) (now : Int) :
    FitGateResult :=
  let db1 := saveFit db jid score
  if highFit score then
    let r := tailorAndGate db1 user jid newAppId resumeText subj body
      recipient now
    ⟨r.response, true, r.enteredDispatch, r.db⟩
  else
    ⟨Except.ok ⟨"low_fit", none, none, some score, none⟩, false, false,
      { db1 with auditLog := db1.auditLog ++
          [⟨user.userId, "job_analysis", "SUCCESS", "low_fit"⟩] }⟩
/-! Dynamic JSON checks performed by the validation code nodes on
completion-service output. -/

/-- Minimal JSON value model for completion-service outputs whose parsed
shape the validation nodes inspect dynamically (`JSON.parse` result). -/
inductive Json where
  | null
  | bool (b : Bool)
  | num (n : Int)
  | str (s : String)
  | arr (xs : List Json)
  | obj (fields : List (String × Json))
/-- JavaScript property read `parsed.k`: `none` models an absent field
(`undefined`). -/
def Json.getField : Json → String → Option Json
  | .obj fields, k => (fields.find? fun kv => kv.1 == k).map Prod.snd
  | _, _ => none
/-- JavaScript truthiness of a possibly-absent value (`!x` negated):
`undefined`, `null`, `false`, `0` and `""` are falsy; arrays and objects
are always truthy. -/
def jsTruthy : Option Json → Bool
  | none => false
  | some .null => false
  | some (.bool b) => b
  | some (.num n) => n != 0
  | some (.str s) => s != ""
  | some (.arr _) => true
  | some (.obj _) => true
/-- `Array.isArray(x)` on a possibly-absent field. -/
def isArrayF : Option Json → Bool
  | some (.arr _) => true
  | _ => false
/-- `x.length` of a field assumed array (0 otherwise). -/
def jsonArrLen : Option Json → Nat
  | some (.arr xs) => xs.length
  | _ => 0
/-- `x.includes("@")` on a string field (false when not a string). -/
def jsonStrHasAt : Option Json → Bool
  | some (.str s) => s.contains '@'
  | _ => false
/-- Read a string field, empty when absent or not a string. -/
def jsonStrField : Option Json → String
  | some (.str s) => s
  | _ => ""
/-- JavaScript property assignment `parsed.k = v` on an object. -/
def Json.setField : Json → String → Json → Json
  | .obj fields, k, v =>
    if fields.any (fun kv => kv.1 == k) then
      .obj (fields.map fun kv => if kv.1 == k then (kv.1, v) else kv)
    else .obj (fields ++ [(k, v)])
  | j, _, _ => j
/-- `Validate - Job Schema` (node j103): throw on missing/falsy
`company_name` (`if (!parsed.company_name) throw ...`) or `job_title`;
then `if (!Array.isArray(parsed.required_skills))
parsed.required_skills = [];` — a non-array `required_skills` is silently
replaced by the empty array and the output is accepted. -/
def validateJobSchema (parsed : Json) : Except String Json :=
  if !jsTruthy (parsed.getField "company_name") then
    Except.error "Missing company_name"
  else if !jsTruthy (parsed.getField "job_title") then
    Except.error "Missing job_title"
  else if !isArrayF (parsed.getField "required_skills") then
    Except.ok (parsed.setField "required_skills" (Json.arr []))
  else Except.ok parsed
/-- A concrete normalization output whose `required_skills` is a string,
not an array. -/
def jobJsonNonArraySkills : Json :=
  Json.obj [("company_name", Json.str "Acme"),
    ("job_title", Json.str "Engineer"),
    ("required_skills", Json.str "Python, SQL")]
/-- `Validate - Resume Schema` (node r103): require truthy `full_name`, an
`email` containing `"@"` (`!parsed.email || !parsed.email.includes("@")`),
and a non-empty `skills` array (`!Array.isArray(parsed.skills) ||
parsed.skills.length === 0`). -/
def validateResumeSchema (parsed : Json) : Except String Json :=
  if !jsTruthy (parsed.getField "full_name") then
    Except.error "Missing full_name"
  else if !jsTruthy (parsed.getField "email") ||
      !jsonStrHasAt (parsed.getField "email") then
    Except.error "Missing or invalid email"
  else if !isArrayF (parsed.getField "skills") ||
      jsonArrLen (parsed.getField "skills") == 0 then
    Except.error "skills must be non-empty array"
  else Except.ok parsed
/-! Worker API (`src/worker_api.py`) and the PDF extractor
(`src/scripts/resume_text.py`). -/

/-- Abstraction of the PDF file the extractor operates on: whether the
path exists, whether its (lower-cased) suffix is `.pdf`, and the text
`page.extract_text()` yields per page (`none` for a page with no text). -/
structure PdfFile where
  path : String
  onDisk : Bool
  suffixIsPdf : Bool
  pages : List (Option String)
  deriving Repr, DecidableEq
/-- Whitespace test for the `str.strip()` model. -/
def isSpaceChar (c : Char) : Bool :=
  c == ' ' || c == '\t' || c == '\n' || c == '\r'
/-- Model of Python `str.strip()`: drop leading and trailing
whitespace. -/
def pyStrip (s : String) : String :=
  String.mk (((s.data.dropWhile isSpaceChar).reverse.dropWhile
    isSpaceChar).reverse)
/-- Model of Python `s.count(pat)` (non-overlapping occurrences):
`len(s.split(pat)) - 1`. -/
def pyCountSub (s pat : String) : Nat := (s.splitOn pat).length - 1
/-- `extract_text_from_pdf` (`resume_text.py`): raise `FileNotFoundError`
when the path does not exist; `ValueError` when the suffix is not `.pdf`,
the PDF has zero pages, or the joined page text is shorter than
`MIN_CHARS = 100`.  Truthy page text is stripped and collected; pages are
joined with a blank line. -/
def extract_text_from_pdf (f : PdfFile) : Except String String :=
  if !f.onDisk then Except.error ("PDF not found: " ++ f.path)
  else if !f.suffixIsPdf then Except.error ("Not a PDF file: " ++ f.path)
  else if f.pages.length == 0 then
    Except.error ("PDF has zero pages: " ++ f.path)
  else
    let pagesText := f.pages.filterMap fun t =>
      match t with
      | none => none
      | some s => if s == "" then none else some (pyStrip s)
    let fullText := String.intercalate "\n\n" pagesText
    if fullText.length < 100 then
      Except.error "Extracted text too short"
    else Except.ok fullText
/-- The `WorkerResponse` envelope of `POST /extract-resume`
(`worker_api.py`): `success`, the `data` dict fields, and `error`. -/
structure ExtractEnvelope where
  success : Bool
  sourceFile : String
  pageCount : Nat
  charCount : Nat
  rawText : String
  error : Option String
  deriving Repr, DecidableEq
/-- The `extract_resume` endpoint (`worker_api.py`): on success wrap the
text with `page_count = raw_text.count("\n\n") + 1` and
`char_count = len(raw_text)`; a `FileNotFoundError`/`ValueError` from the
extractor is caught and returned as a normal envelope with zeroed data
and the exception message — not as an HTTP error. -/
def extract_resume (f : PdfFile) : ExtractEnvelope :=
  match extract_text_from_pdf f with
  | .ok raw =>
    { success := true, sourceFile := f.path,
      pageCount := pyCountSub raw "\n\n" + 1,
      charCount := raw.length, rawText := raw, error := none }
  | .error e =>
    { success := false, sourceFile := f.path, pageCount := 0,
      charCount := 0, rawText := "", error := some e }
/-- A concrete 120-character single-page PDF accepted by the extractor. -/
def samplePdf : PdfFile :=
  ⟨"/data/resume.pdf", true, true, [some (String.mk (List.replicate 120 'a'))]⟩
/-! Resume Ingestion module (`Validate - Resume Text` through
`Postgres - Upsert User Resume`). -/

/-- JavaScript `x || d` on a nullable string (`resp.error || "unknown"`). -/
def jsOrString (x : Option String) (d : String) : String :=
  match x with
  | none => d
  | some s => if s == "" then d else s
/-- `Validate - Resume Text` (node r101): `if (!resp.success) throw
"Resume extraction failed: " + (resp.error || "unknown"); if
(!parsed.raw_text || parsed.char_count < 100) throw "Resume text too
short: " + parsed.char_count`. -/
def validateResumeText (resp : ExtractEnvelope) :
    Except String ExtractEnvelope :=
  if !resp.success then
    Except.error ("Resume extraction failed: " ++ jsOrString resp.error "unknown")
  else if resp.rawText == "" || decide (resp.charCount < 100) then
    Except.error ("Resume text too short: " ++ toString resp.charCount)
  else Except.ok resp
/-- Resume Ingestion pipeline: `Log - Resume Start` →
(`HTTP - Extract Resume` result `resp`) → `Validate - Resume Text` →
(`AI Agent - Structure Resume` output `llmOut`) →
`Validate - Resume Schema` → `Postgres - Upsert User Resume` →
`Log - Resume Success` → `Set - Resume OK`.  A throw at either validation
aborts before the `users` update. -/
def resumeIngestion (db : DB) (uid filePath : String)
    (resp : ExtractEnvelope) (llmOut : Json) :
    Except String Response × DB :=
  let db0 := { db with auditLog := db.auditLog ++
      [⟨uid, "resume_ingestion", "STARTED", filePath⟩] }
  match validateResumeText resp with
  | .error e => (Except.error e, db0)
  | .ok v =>
    match validateResumeSchema llmOut with
    | .error e => (Except.error e, db0)
    | .ok parsed =>
      let db1 := { db0 with users := db0.users.map fun u : UserRow =>
          if u.userId == uid then
            { u with fullName := jsonStrField (parsed.getField "full_name"), rawResumeText := v.rawText }
          else u }
      (Except.ok ⟨"success", some "resume_ingestion", none, none, none⟩,
        { db1 with auditLog := db1.auditLog ++
            [⟨uid, "resume_ingestion", "SUCCESS", ""⟩] })
/-! Auth gate (`Validate - User Auth`) and router (`Switch - Router`). -/

/-- JavaScript truthiness of a nullable string column
(`!user.api_key_hash`): SQL `NULL` and `""` are falsy. -/
def jsTruthyStr (x : Option String) : Bool :=
  match x with
  | none => false
  | some s => s != ""
/-- `Validate - User Auth` (node w005): `if (!user || !user.user_id)
throw "User not found ..."; if (!user.api_key_hash) skip key check;
else if (apiKey !== user.api_key_hash) throw "Invalid API key for user
..."`.  The `user` argument is the (at most one) row returned by
`Postgres - Validate User`; `suppliedKey` is
`headers["x-user-api-key"] || ""`. -/
def validateUserAuth (user : Option UserRow) (suppliedKey : String) :
    Except String UserRow :=
  match user with
  | none => Except.error "User not found"
  | some u =>
    if u.userId == "" then Except.error "User not found"
    else if !jsTruthyStr u.apiKeyHash then Except.ok u
    else if suppliedKey != (u.apiKeyHash.getD "") then
      Except.error ("Invalid API key for user " ++ u.userId)
    else Except.ok u
/-- The five outputs of `Switch - Router`. -/
inductive RouteTarget where
  | resumeUpload
  | analyzeJob
  | dispatchEmail
  | processInbound
  | badAction
  deriving Repr, DecidableEq
/-- `Switch - Router` (node w010): pure string-equality lookup on
`action`, with the fallback output feeding `Set - 400 Bad Action`. -/
def routeAction (action : String) : RouteTarget :=
  if action == "resume_upload" then .resumeUpload
  else if action == "analyze_job" then .analyzeJob
  else if action == "dispatch_email" then .dispatchEmail
  else if action == "process_inbound" then .processInbound
  else .badAction
/-- `Validate - User Auth` → `Switch - Router` composition: a throw in
the auth node means the router (hence every module pipeline) is never
reached. -/
def authEntry (user : Option UserRow) (suppliedKey action : String) :
    Except String RouteTarget :=
  match validateUserAuth user suppliedKey with
  | .error e => Except.error e
  | .ok _ => Except.ok (routeAction action)
/-! Inbound Reply Module (dedup → payload validation → classification →
inbound log). -/

/-- `Postgres - Check Inbound Dup` + `IF - Inbound Already Processed`:
`SELECT inbound_id FROM inbound_email_log WHERE user_id = .. AND
message_id = .. LIMIT 1`, then `inbound_id isNotEmpty`. -/
def inboundDup (db : DB) (uid messageId : String) : Bool :=
  db.inboundLog.any fun r => r.userId == uid && r.messageId == messageId
/-- `Postgres - Log Inbound`: `INSERT INTO inbound_email_log ... ON
CONFLICT (user_id, message_id) DO NOTHING`. -/
def logInbound (db : DB) (row : InboundRow) : DB :=
  if db.inboundLog.any (fun r =>
      r.userId == row.userId && r.messageId == row.messageId) then db
  else { db with inboundLog := db.inboundLog ++ [row] }
/-- The classifier output consumed by `Validate - Classification`
(already JSON-parsed). -/
structure Classification where
  replyType : String
  deriving Repr, DecidableEq
/-- The valid `reply_type` list of `Validate - Classification`. -/
def validReplyTypes : List String :=
  ["INTERVIEW_INVITE", "FOLLOW_UP_REQUIRED", "REJECTION",
    "INFORMATION_REQUEST", "OTHER"]
/-- The `Switch - Reply Type` target for a validated `reply_type`
(fallback output feeds `Log - Other Inbound`). -/
def replyRoute (replyType : String) : String :=
  if replyType == "INTERVIEW_INVITE" then "AI Agent - Extract Interview"
  else if replyType == "FOLLOW_UP_REQUIRED" then "AI Agent - Generate Reply"
  else if replyType == "INFORMATION_REQUEST" then "AI Agent - Generate Reply"
  else if replyType == "REJECTION" then "AI Agent - Rejection Ack"
  else "Log - Other Inbound"
/-- Result of the inbound pipeline prefix: the `Set - Inbound Skipped`
envelope when the dedup short-circuited, the thrown error if any, the
`Switch - Reply Type` target when classification was reached, how many
times the completion-service classifier was invoked, and the final
database. -/
structure InboundResult where
  skippedResp : Option Response
  err : Option String
  routedTo : Option String
  classifierCalls : Nat
  db : DB
/-- Inbound branch per the connection graph: `Log - Inbound Start` →
`Postgres - Check Inbound Dup` → `IF - Inbound Already Processed` →
(`Set - Inbound Skipped` | `Validate - Inbound Payload` →
`Postgres - Match Thread` → `AI Agent - Classify Reply` →
`Validate - Classification` → `Postgres - Log Inbound` →
`Switch - Reply Type`).  `cls` stands for the classifier's parsed
output. -/
def inboundProcess (db : DB)
    (uid threadId messageId senderEmail emailBody : String)
    (cls : Classification) : InboundResult :=
  -- Log - Inbound Start
  let db0 := { db with auditLog := db.auditLog ++
      [⟨uid, "inbound_email", "STARTED", threadId⟩] }
  -- Postgres - Check Inbound Dup → IF - Inbound Already Processed
  if inboundDup db0 uid messageId then
    -- Set - Inbound Skipped
    ⟨some ⟨"skipped", none, none, none, some "already_processed"⟩,
      none, none, 0, db0⟩
  else
    -- Validate - Inbound Payload
    if threadId == "" then ⟨none, some "Missing thread_id", none, 0, db0⟩
    else if messageId == "" then ⟨none, some "Missing message_id", none, 0, db0⟩
    else if senderEmail == "" then
      ⟨none, some "Missing sender_email", none, 0, db0⟩
    else if emailBody == "" then ⟨none, some "Missing email_body", none, 0, db0⟩
    else
      -- AI Agent - Classify Reply: one completion-service invocation,
      -- then Validate - Classification
      if !(validReplyTypes.contains cls.replyType) then
        ⟨none, some ("Invalid reply_type: " ++ cls.replyType), none, 1, db0⟩
      else
        -- Postgres - Log Inbound → Switch - Reply Type
        let db1 := logInbound db0
          ⟨uid, threadId, messageId, senderEmail, cls.replyType⟩
        ⟨none, none, some (replyRoute cls.replyType), 1, db1⟩

/-- `rateCheck` passes exactly when both counted totals are strictly below
their caps. -/
theorem rateCheck_none_iff (db : DB) (req : DispatchReq) (now : Int) :
    rateCheck db req now = none ↔
      hourlyCount db.dispatchLog req.userId now < jsOrDefault req.hourlyLimit 10 ∧
      dailyCount db.dispatchLog req.userId now < jsOrDefault req.dailyLimit 50 := by
  simp only [rateCheck]
  split_ifs with h1 h2 <;> simp <;> omega
/-- Case analysis on what one run of the dispatch chain does to the
dispatch log: either it is left untouched, or (rate checks passed, no row
with the same (tenant, job, hash) key existed) exactly the one `sentRow`
is appended. -/
theorem dispatchChain_log_cases (fp : FailPoint) (db : DB) (req : DispatchReq)
    (now : Int) :
    (dispatchChain fp db req now).db.dispatchLog = db.dispatchLog ∨
      ((∀ r ∈ db.dispatchLog, keyMatch req r = false) ∧
        hourlyCount db.dispatchLog req.userId now < jsOrDefault req.hourlyLimit 10 ∧
        dailyCount db.dispatchLog req.userId now < jsOrDefault req.dailyLimit 50 ∧
        (dispatchChain fp db req now).db.dispatchLog =
          db.dispatchLog ++ [sentRow req now]) := by
  unfold dispatchChain
  by_cases h1 : (fp == FailPoint.beforeRateQuery) = true
  · rw [if_pos h1]; left; rfl
  · rw [if_neg h1]
    cases hrc : rateCheck db req now with
    | some m => left; rfl
    | none =>
      have hcounts := (rateCheck_none_iff db req now).mp hrc
      by_cases h2 : alreadySent db req = true
      · rw [if_pos h2]; left; rfl
      · rw [if_neg h2]
        by_cases h3 : (fp == FailPoint.beforeSend) = true
        · rw [if_pos h3]; left; rfl
        · rw [if_neg h3]
          by_cases h4 : (fp == FailPoint.beforeLogSend) = true
          · rw [if_pos h4]; left; rfl
          · rw [if_neg h4]
            by_cases h5 : db.dispatchLog.any (keyMatch req) = true
            · -- ON CONFLICT DO NOTHING fires: the log is unchanged on
              -- every remaining path
              left
              by_cases h6 : (fp == FailPoint.beforeMarkApp) = true
              · rw [if_pos h6]; simp [logSend, h5]
              · rw [if_neg h6]
                by_cases h7 : (fp == FailPoint.beforeAudit) = true
                · rw [if_pos h7]; simp [logSend, markAppSent, h5]
                · rw [if_neg h7]; simp [logSend, markAppSent, h5]
            · -- fresh key: the row is inserted
              right
              have hfresh : ∀ r ∈ db.dispatchLog, keyMatch req r = false := by
                intro r hr
                by_contra hcon
                exact h5 (List.any_eq_true.mpr
                  ⟨r, hr, by simpa using hcon⟩)
              refine ⟨hfresh, hcounts.1, hcounts.2, ?_⟩
              by_cases h6 : (fp == FailPoint.beforeMarkApp) = true
              · rw [if_pos h6]; simp [logSend, h5]
              · rw [if_neg h6]
                by_cases h7 : (fp == FailPoint.beforeAudit) = true
                · rw [if_pos h7]; simp [logSend, markAppSent, h5]
                · rw [if_neg h7]; simp [logSend, markAppSent, h5]
/-- Unfolding of the conflict-key predicate into propositional equalities. -/
theorem keyMatch_true_iff (req : DispatchReq) (r : DispatchRow) :
    keyMatch req r = true ↔
      r.userId = req.userId ∧ r.jobId = req.jobId ∧
        r.emailBodyHash = emailBodyHash req.subject req.body := by
  simp [keyMatch, and_assoc]
/-- Normal-path characterization: when the rate checks pass and no row with
the same (tenant, job, hash) key exists, the chain sends once, appends the
SENT row, marks the application, and writes the SUCCESS audit. -/
theorem dispatchChain_sendPath (db : DB) (req : DispatchReq) (now : Int)
    (hh : hourlyCount db.dispatchLog req.userId now < jsOrDefault req.hourlyLimit 10)
    (hd : dailyCount db.dispatchLog req.userId now < jsOrDefault req.dailyLimit 50)
    (hkey : db.dispatchLog.any (keyMatch req) = false) :
    dispatchChain .noFail db req now =
      ⟨.sent, [(req.recipient, req.subject, req.body)],
        { db with
            dispatchLog := db.dispatchLog ++ [sentRow req now],
            applications := db.applications.map fun a =>
              if a.appId == req.appId then { a with status := "SENT" } else a,
            auditLog := db.auditLog ++
              [⟨req.userId, "email_dispatch", "SUCCESS", req.recipient⟩] }⟩ := by
  have hrc : rateCheck db req now = none := (rateCheck_none_iff db req now).mpr ⟨hh, hd⟩
  have hdup : alreadySent db req = false := by
    rw [alreadySent, List.any_eq_false]
    intro r hr
    have hk : keyMatch req r = false := by
      rw [List.any_eq_false] at hkey
      simpa using hkey r hr
    simp [hk]
  simp [dispatchChain, hrc, hdup, logSend, hkey, markAppSent]
/-- Duplicate-path characterization: when the rate checks pass and a SENT
row with the same key already exists, the chain performs no provider send,
leaves every table but the audit log untouched, and logs SKIPPED. -/
theorem dispatchChain_skipPath (db : DB) (req : DispatchReq) (now : Int)
    (hh : hourlyCount db.dispatchLog req.userId now < jsOrDefault req.hourlyLimit 10)
    (hd : dailyCount db.dispatchLog req.userId now < jsOrDefault req.dailyLimit 50)
    (hdup : alreadySent db req = true) :
    dispatchChain .noFail db req now =
      ⟨.skipped, [], { db with auditLog := db.auditLog ++ [skippedAudit req] }⟩ := by
  have hrc : rateCheck db req now = none := (rateCheck_none_iff db req now).mpr ⟨hh, hd⟩
  simp [dispatchChain, hrc, hdup]
/-- Rate-limited-path characterization: when a counted total has reached
its cap, the chain throws, performs no send and leaves the database
untouched. -/
theorem dispatchChain_ratePath (db : DB) (req : DispatchReq) (now : Int)
    (h : hourlyCount db.dispatchLog req.userId now ≥ jsOrDefault req.hourlyLimit 10 ∨
      dailyCount db.dispatchLog req.userId now ≥ jsOrDefault req.dailyLimit 50) :
    ∃ m, dispatchChain .noFail db req now = ⟨.rateLimited m, [], db⟩ := by
  cases hrc : rateCheck db req now with
  | none =>
    have := (rateCheck_none_iff db req now).mp hrc
    omega
  | some m =>
    exact ⟨m, by simp [dispatchChain, hrc]⟩
/-- The dispatch chain preserves the idempotency-ledger invariant, whatever
failure is injected. -/
theorem dispatchChain_preserves_atMostOneSent (fp : FailPoint) (db : DB)
    (req : DispatchReq) (now : Int) (hinv : atMostOneSent db.dispatchLog) :
    atMostOneSent (dispatchChain fp db req now).db.dispatchLog := by
  rcases dispatchChain_log_cases fp db req now with h | ⟨hfresh, _, _, h⟩
  · rw [h]; exact hinv
  · rw [h, atMostOneSent, List.pairwise_append]
    refine ⟨hinv, by simp, ?_⟩
    intro a ha b hb hsa hsb hkeys
    have hb' : b = sentRow req now := by simpa using hb
    have hk := hfresh a ha
    rw [← Bool.not_eq_true, keyMatch_true_iff] at hk
    exact hk ⟨by rw [hkeys.1, hb']; simp [sentRow],
      by rw [hkeys.2.1, hb']; simp [sentRow],
      by rw [hkeys.2.2, hb']; simp [sentRow]⟩
/-- C1.  For every tenant and job, the dispatch chain keeps at most one
SENT dispatch-log row per (tenant, job, content-hash) — the hash being
computed over subject + body — and dispatching the same subject and body a
second time performs no second provider send, yields exactly one SENT row
for that key, and appends one SKIPPED audit entry instead.  The first five
conjuncts are the concrete double-dispatch scenario; the last is the
invariant preservation for arbitrary injected failures. -/
theorem dispatch_idempotency_unique_sent (db : DB) (req : DispatchReq)
    (t1 t2 : Int)
    (hkey : db.dispatchLog.any (keyMatch req) = false)
    (hh1 : hourlyCount db.dispatchLog req.userId t1 <
      jsOrDefault req.hourlyLimit 10)
    (hd1 : dailyCount db.dispatchLog req.userId t1 <
      jsOrDefault req.dailyLimit 50)
    (hh2 : hourlyCount (dispatchChain .noFail db req t1).db.dispatchLog
      req.userId t2 < jsOrDefault req.hourlyLimit 10)
    (hd2 : dailyCount (dispatchChain .noFail db req t1).db.dispatchLog
      req.userId t2 < jsOrDefault req.dailyLimit 50) :
    (dispatchChain .noFail db req t1).outcome = .sent ∧
    (dispatchChain .noFail (dispatchChain .noFail db req t1).db req t2).outcome
      = .skipped ∧
    (dispatchChain .noFail (dispatchChain .noFail db req t1).db req t2).sends
      = [] ∧
    sentKeyCount
      (dispatchChain .noFail (dispatchChain .noFail db req t1).db req t2).db.dispatchLog
      req.userId req.jobId (emailBodyHash req.subject req.body) = 1 ∧
    (dispatchChain .noFail (dispatchChain .noFail db req t1).db req t2).db.auditLog
      = (dispatchChain .noFail db req t1).db.auditLog ++ [skippedAudit req] ∧
    (∀ fp db0 now, atMostOneSent db0.dispatchLog →
      atMostOneSent (dispatchChain fp db0 req now).db.dispatchLog) := by
  have hsend := dispatchChain_sendPath db req t1 hh1 hd1 hkey
  rw [hsend] at hh2 hd2 ⊢
  have hdup : alreadySent
      { db with
          dispatchLog := db.dispatchLog ++ [sentRow req t1],
          applications := db.applications.map fun a =>
            if a.appId == req.appId then { a with status := "SENT" } else a,
          auditLog := db.auditLog ++
            [⟨req.userId, "email_dispatch", "SUCCESS", req.recipient⟩] } req
      = true := by
    rw [alreadySent, List.any_eq_true]
    exact ⟨sentRow req t1, by simp, by simp [keyMatch, sentRow]⟩
  have hskip := dispatchChain_skipPath _ req t2 hh2 hd2 hdup
  rw [hskip]
  have hzero : sentKeyCount db.dispatchLog req.userId req.jobId
      (emailBodyHash req.subject req.body) = 0 := by
    rw [sentKeyCount, List.countP_eq_zero]
    intro r hr
    have hk : keyMatch req r = false := by
      rw [List.any_eq_false] at hkey
      simpa using hkey r hr
    rw [← Bool.not_eq_true, keyMatch_true_iff] at hk
    intro hcon
    simp only [Bool.and_eq_true, beq_iff_eq] at hcon
    exact hk ⟨hcon.1.1.1, hcon.1.1.2, hcon.1.2⟩
  refine ⟨rfl, rfl, rfl, ?_, rfl,
    fun fp db0 now h => dispatchChain_preserves_atMostOneSent fp db0 req now h⟩
  rw [sentKeyCount, List.countP_append, ← sentKeyCount, hzero]
  simp [sentRow]
/-- Witness for C1: both dispatches run on a concrete empty database. -/
theorem dispatch_idempotency_unique_sent_witness :
    (dispatchChain .noFail ⟨[], [], [], [], [], []⟩
      ⟨"u1", "j1", "a1", none, none, "subj", "body", "hr"⟩ 0).outcome
        = .sent ∧
    (dispatchChain .noFail
      (dispatchChain .noFail ⟨[], [], [], [], [], []⟩
        ⟨"u1", "j1", "a1", none, none, "subj", "body", "hr"⟩ 0).db
      ⟨"u1", "j1", "a1", none, none, "subj", "body", "hr"⟩ 60).outcome
        = .skipped := by
  have h := dispatch_idempotency_unique_sent ⟨[], [], [], [], [], []⟩
    ⟨"u1", "j1", "a1", none, none, "subj", "body", "hr"⟩ 0 60
    (by decide) (by decide) (by decide) (by decide) (by decide)
  exact ⟨h.1, h.2.1⟩
/-- At the moment of evaluation the code's one-sided recency query agrees
with the spec's two-sided trailing-window count, because every existing
row was created at or before `now`. -/
theorem recentCount_eq_trailing (log : List DispatchRow) (uid : String)
    (now w : Int) (hpast : ∀ r ∈ log, r.createdAt ≤ now) :
    recentCount log uid now w = trailingCount log uid now w := by
  refine Nat.le_antisymm ?_ ?_
  · rw [recentCount, trailingCount]
    apply List.countP_mono_left
    intro r hr hp
    have := hpast r hr
    simp only [Bool.and_eq_true, decide_eq_true_eq] at hp ⊢
    exact ⟨hp.1, hp.2, this⟩
  · rw [recentCount, trailingCount]
    apply List.countP_mono_left
    intro r hr hp
    simp only [Bool.and_eq_true, decide_eq_true_eq] at hp ⊢
    exact ⟨hp.1, hp.2.1⟩
/-- Appending the freshly inserted SENT row cannot push any trailing
window past a cap that the pre-insertion recency check verified strictly:
every window that contains the new row ends at or after `now`, so its old
rows are a subset of those the check counted. -/
theorem trailingCount_append_sent_le (l : List DispatchRow)
    (req : DispatchReq) (now t w : Int) (cap : Nat)
    (htrail : trailingCount l req.userId t w ≤ cap)
    (hrecent : recentCount l req.userId now w < cap) :
    trailingCount (l ++ [sentRow req now]) req.userId t w ≤ cap := by
  rw [trailingCount, List.countP_append, ← trailingCount]
  by_cases hp : ((sentRow req now).userId == req.userId &&
      (sentRow req now).sentStatus == "SENT" &&
      (decide ((sentRow req now).createdAt > t - w) &&
        decide ((sentRow req now).createdAt ≤ t))) = true
  · have hwin : t - w < now ∧ now ≤ t := by
      simp only [Bool.and_eq_true, decide_eq_true_eq, sentRow] at hp
      exact ⟨hp.2.1, hp.2.2⟩
    have hmono : trailingCount l req.userId t w ≤
        recentCount l req.userId now w := by
      rw [trailingCount, recentCount]
      apply List.countP_mono_left
      intro r hr hpr
      simp only [Bool.and_eq_true, decide_eq_true_eq] at hpr ⊢
      obtain ⟨hab, hgt, hle⟩ := hpr
      exact ⟨hab, by omega⟩
    have hone : List.countP (fun r =>
        r.userId == req.userId && r.sentStatus == "SENT" &&
          (decide (r.createdAt > t - w) && decide (r.createdAt ≤ t)))
        [sentRow req now] ≤ 1 :=
      le_trans (List.countP_le_length _) (by simp)
    omega
  · have hzero : List.countP (fun r =>
        r.userId == req.userId && r.sentStatus == "SENT" &&
          (decide (r.createdAt > t - w) && decide (r.createdAt ≤ t)))
        [sentRow req now] = 0 := by
      simp only [List.countP_cons, List.countP_nil]
      simp only [Bool.not_eq_true] at hp
      rw [hp]
      simp
    omega
/-- C2.  The trailing-window invariant: if every trailing 1-hour window
holds at most the tenant's hourly cap of SENT rows and every trailing
24-hour window at most the daily cap, that stays true after any run of the
dispatch chain (whatever failure is injected); and whenever a counted
total has already reached its cap, the chain fails with the rate-limit
error before any provider send and leaves the database — in particular
the dispatch log — untouched. -/
theorem rate_limit_never_exceeded (db : DB) (req : DispatchReq) (now : Int)
    (hinv : ∀ t : Int,
      trailingCount db.dispatchLog req.userId t 3600 ≤
        jsOrDefault req.hourlyLimit 10 ∧
      trailingCount db.dispatchLog req.userId t 86400 ≤
        jsOrDefault req.dailyLimit 50) :
    (∀ fp : FailPoint, ∀ t : Int,
      trailingCount (dispatchChain fp db req now).db.dispatchLog req.userId
        t 3600 ≤ jsOrDefault req.hourlyLimit 10 ∧
      trailingCount (dispatchChain fp db req now).db.dispatchLog req.userId
        t 86400 ≤ jsOrDefault req.dailyLimit 50) ∧
    ((hourlyCount db.dispatchLog req.userId now ≥ jsOrDefault req.hourlyLimit 10 ∨
      dailyCount db.dispatchLog req.userId now ≥ jsOrDefault req.dailyLimit 50) →
      ∃ m, dispatchChain .noFail db req now =
        ⟨.rateLimited m, [], db⟩) := by
  refine ⟨?_, dispatchChain_ratePath db req now⟩
  intro fp t
  rcases dispatchChain_log_cases fp db req now with h | ⟨_, hh, hd, h⟩
  · rw [h]; exact hinv t
  · rw [h]
    exact ⟨trailingCount_append_sent_le db.dispatchLog req now t 3600 _
        (hinv t).1 hh,
      trailingCount_append_sent_le db.dispatchLog req now t 86400 _
        (hinv t).2 hd⟩
/-- Witness for C2: concrete run on an empty database. -/
theorem rate_limit_never_exceeded_witness :
    trailingCount
      (dispatchChain .noFail ⟨[], [], [], [], [], []⟩
        ⟨"u1", "j1", "a1", none, none, "s", "b", "hr"⟩ 0).db.dispatchLog
      "u1" 0 3600 ≤ 10 := by
  have h := (rate_limit_never_exceeded ⟨[], [], [], [], [], []⟩
    ⟨"u1", "j1", "a1", none, none, "s", "b", "hr"⟩ 0
    (fun t => by constructor <;> simp [trailingCount])).1 .noFail 0
  exact h.1
/-- C3.  The dispatch-log insert (`Postgres - Log Send`) strictly precedes
the application-status update (`Postgres - Mark App Sent`) in the chain,
so no injected failure can newly mark the dispatched application SENT
without a dispatch-log row for its (tenant, job, content-hash) key being
present. -/
theorem app_sent_implies_dispatch_row (fp : FailPoint) (db : DB)
    (req : DispatchReq) (now : Int)
    (happ : ∃ a ∈ (dispatchChain fp db req now).db.applications,
      a.appId = req.appId ∧ a.status = "SENT") :
    (∃ a ∈ db.applications, a.appId = req.appId ∧ a.status = "SENT") ∨
      ∃ r ∈ (dispatchChain fp db req now).db.dispatchLog,
        r.userId = req.userId ∧ r.jobId = req.jobId ∧
          r.emailBodyHash = emailBodyHash req.subject req.body := by
  revert happ
  simp only [dispatchChain]
  by_cases h1 : (fp == FailPoint.beforeRateQuery) = true
  · rw [if_pos h1]; exact fun h => Or.inl h
  · rw [if_neg h1]
    cases hrc : rateCheck db req now with
    | some m => exact fun h => Or.inl h
    | none =>
      by_cases h2 : alreadySent db req = true
      · rw [if_pos h2]; exact fun h => Or.inl h
      · rw [if_neg h2]
        by_cases h3 : (fp == FailPoint.beforeSend) = true
        · rw [if_pos h3]; exact fun h => Or.inl h
        · rw [if_neg h3]
          by_cases h4 : (fp == FailPoint.beforeLogSend) = true
          · rw [if_pos h4]; exact fun h => Or.inl h
          · rw [if_neg h4]
            -- from here on the log-send insert has already happened on
            -- every remaining path, so the log row exists outright
            have hrow : ∀ hby : Bool, ∃ r ∈ (logSend db req now).dispatchLog,
                r.userId = req.userId ∧ r.jobId = req.jobId ∧
                  r.emailBodyHash = emailBodyHash req.subject req.body := by
              intro _
              rw [logSend]
              by_cases h5 : db.dispatchLog.any (keyMatch req) = true
              · rw [if_pos h5]
                obtain ⟨r, hr, hk⟩ := List.any_eq_true.mp h5
                exact ⟨r, hr, (keyMatch_true_iff req r).mp hk⟩
              · rw [if_neg h5]
                refine ⟨sentRow req now, by simp, ?_⟩
                simp [sentRow]
            by_cases h6 : (fp == FailPoint.beforeMarkApp) = true
            · rw [if_pos h6]
              exact fun _ => Or.inr (hrow true)
            · rw [if_neg h6]
              by_cases h7 : (fp == FailPoint.beforeAudit) = true
              · rw [if_pos h7]
                exact fun _ => Or.inr (by
                  simpa [markAppSent] using hrow true)
              · rw [if_neg h7]
                exact fun _ => Or.inr (by
                  simpa [markAppSent] using hrow true)
/-- Witness for C3: concrete database in which the application was already
SENT before the (duplicate) dispatch ran. -/
theorem app_sent_implies_dispatch_row_witness :
    (∃ a ∈ (dispatchChain .noFail
        ⟨[], [], [⟨"a1", "u1", "j1", 1, "txt", "s", "b", "SENT"⟩], [], [], []⟩
        ⟨"u1", "j1", "a1", none, none, "s", "b", "hr"⟩ 0).db.applications,
      a.appId = "a1" ∧ a.status = "SENT") ∨
      ∃ r ∈ (dispatchChain .noFail
        ⟨[], [], [⟨"a1", "u1", "j1", 1, "txt", "s", "b", "SENT"⟩], [], [], []⟩
        ⟨"u1", "j1", "a1", none, none, "s", "b", "hr"⟩ 0).db.dispatchLog,
        r.userId = "u1" ∧ r.jobId = "j1" ∧
          r.emailBodyHash = emailBodyHash "s" "b" := by
  exact app_sent_implies_dispatch_row .noFail
    ⟨[], [], [⟨"a1", "u1", "j1", 1, "txt", "s", "b", "SENT"⟩], [], [], []⟩
    ⟨"u1", "j1", "a1", none, none, "s", "b", "hr"⟩ 0 (by decide)
/-- The dispatch chain never touches the `users`, `jobs` or
`inbound_email_log` tables. -/
theorem dispatchChain_frame (fp : FailPoint) (db : DB) (req : DispatchReq)
    (now : Int) :
    (dispatchChain fp db req now).db.users = db.users ∧
    (dispatchChain fp db req now).db.jobs = db.jobs ∧
    (dispatchChain fp db req now).db.inboundLog = db.inboundLog := by
  simp only [dispatchChain]
  by_cases h1 : (fp == FailPoint.beforeRateQuery) = true
  · rw [if_pos h1]; exact ⟨rfl, rfl, rfl⟩
  · rw [if_neg h1]
    cases hrc : rateCheck db req now with
    | some m => exact ⟨rfl, rfl, rfl⟩
    | none =>
      by_cases h2 : alreadySent db req = true
      · rw [if_pos h2]; exact ⟨rfl, rfl, rfl⟩
      · rw [if_neg h2]
        by_cases h3 : (fp == FailPoint.beforeSend) = true
        · rw [if_pos h3]; exact ⟨rfl, rfl, rfl⟩
        · rw [if_neg h3]
          by_cases h4 : (fp == FailPoint.beforeLogSend) = true
          · rw [if_pos h4]; exact ⟨rfl, rfl, rfl⟩
          · rw [if_neg h4]
            by_cases h6 : (fp == FailPoint.beforeMarkApp) = true
            · rw [if_pos h6]
              refine ⟨?_, ?_, ?_⟩ <;> simp [logSend, apply_ite]
            · rw [if_neg h6]
              by_cases h7 : (fp == FailPoint.beforeAudit) = true
              · rw [if_pos h7]
                refine ⟨?_, ?_, ?_⟩ <;> simp [logSend, markAppSent, apply_ite]
              · rw [if_neg h7]
                refine ⟨?_, ?_, ?_⟩ <;> simp [logSend, markAppSent, apply_ite]
/-- The application upsert changes only the `applications` table. -/
theorem upsertApplication_frame (db : DB)
    (uid jid text emailMode newAppId : String) :
    (upsertApplication db uid jid text emailMode newAppId).1.users = db.users ∧
    (upsertApplication db uid jid text emailMode newAppId).1.jobs = db.jobs ∧
    (upsertApplication db uid jid text emailMode newAppId).1.dispatchLog
      = db.dispatchLog ∧
    (upsertApplication db uid jid text emailMode newAppId).1.inboundLog
      = db.inboundLog ∧
    (upsertApplication db uid jid text emailMode newAppId).1.auditLog
      = db.auditLog := by
  rw [upsertApplication]
  cases hfind : db.applications.find? (fun a =>
      a.userId == uid && a.jobId == jid && a.resumeVersion == 1) <;>
    exact ⟨rfl, rfl, rfl, rfl, rfl⟩
/-- The application upsert leaves an application row carrying the returned
id whose status is the freshly computed `appUpsertStatus` (both on insert
and on conflict-update). -/
theorem upsertApplication_result (db : DB)
    (uid jid text emailMode newAppId : String) :
    ∃ a ∈ (upsertApplication db uid jid text emailMode newAppId).1.applications,
      a.appId = (upsertApplication db uid jid text emailMode newAppId).2 ∧
      a.status = appUpsertStatus emailMode := by
  rw [upsertApplication]
  cases hfind : db.applications.find? (fun a =>
      a.userId == uid && a.jobId == jid && a.resumeVersion == 1) with
  | none =>
    exact ⟨⟨newAppId, uid, jid, 1, text, "", "", appUpsertStatus emailMode⟩,
      by simp, rfl, rfl⟩
  | some existing =>
    have hmem := List.mem_of_find?_eq_some hfind
    have hpred := List.find?_some hfind
    exact ⟨{ existing with tailoredResumeText := text, status := appUpsertStatus emailMode },
      List.mem_map.mpr ⟨existing, hmem, by simp [hpred]⟩, rfl, rfl⟩
/-- `Postgres - Save Email Draft` preserves every row's id and status. -/
theorem saveEmailDraft_preserves (db : DB) (appId subj body : String) :
    ∀ a ∈ db.applications,
      ∃ b ∈ (saveEmailDraft db appId subj body).applications,
        b.appId = a.appId ∧ b.status = a.status := by
  intro a ha
  rw [saveEmailDraft]
  by_cases h : (a.appId == appId) = true
  · exact ⟨{ a with emailSubject := subj, emailBody := body },
      List.mem_map.mpr ⟨a, ha, by simp [h]⟩, rfl, rfl⟩
  · exact ⟨a, List.mem_map.mpr ⟨a, ha, by simp [h]⟩, rfl, rfl⟩
/-- `IF - Auto Send` routes into the dispatch chain exactly for
`email_mode = AUTO`. -/
theorem tailorAndGate_enteredDispatch (db : DB) (user : UserRow)
    (jid newAppId resumeText subj body recipient : String) (now : Int) :
    (tailorAndGate db user jid newAppId resumeText subj body recipient
      now).enteredDispatch = (user.emailMode == "AUTO") := by
  simp only [tailorAndGate]
  by_cases h : (user.emailMode == "AUTO") = true
  · rw [if_pos h, h]
  · rw [if_neg h]
    simp only [Bool.not_eq_true] at h
    exact h.symm
/-- The tailoring segment never touches the `jobs` table. -/
theorem tailorAndGate_jobs (db : DB) (user : UserRow)
    (jid newAppId resumeText subj body recipient : String) (now : Int) :
    (tailorAndGate db user jid newAppId resumeText subj body recipient
      now).db.jobs = db.jobs := by
  have hup := (upsertApplication_frame db user.userId jid resumeText
    user.emailMode newAppId).2.1
  simp only [tailorAndGate]
  by_cases h : (user.emailMode == "AUTO") = true
  · rw [if_pos h]
    have hf := (dispatchChain_frame .noFail
      (saveEmailDraft
        (upsertApplication db user.userId jid resumeText user.emailMode
          newAppId).1
        (upsertApplication db user.userId jid resumeText user.emailMode
          newAppId).2 subj body)
      ⟨user.userId, jid,
        (upsertApplication db user.userId jid resumeText user.emailMode
          newAppId).2,
        user.hourlyLimit, user.dailyLimit, subj, body, recipient⟩ now).2.1
    rw [hf]
    exact hup
  · rw [if_neg h]
    exact hup
/-- Every job row matching the updated id carries the CASE-computed status
after `Postgres - Save Fit`. -/
theorem saveFit_jobs_status (db : DB) (jid : String) (score : Int) :
    ∀ j ∈ (saveFit db jid score).jobs, j.jobId = jid →
      j.status = saveFitStatus score := by
  intro j hj hid
  rw [saveFit] at hj
  obtain ⟨x, hx, rfl⟩ := List.mem_map.mp hj
  by_cases h : (x.jobId == jid) = true
  · simp [h]
  · simp only [h, if_neg, Bool.false_eq_true, if_false] at hid ⊢
    exact absurd hid (by simpa using h)
/-- `IF - High Fit` takes the tailoring branch exactly when the rounded
score passes the threshold test `score >= 75`. -/
theorem jobFitGate_enteredTailoring (db : DB) (user : UserRow) (jid : String)
    (score : Int) (newAppId resumeText subj body recipient : String)
    (now : Int) :
    (jobFitGate db user jid score newAppId resumeText subj body recipient
      now).enteredTailoring = highFit score := by
  simp only [jobFitGate]
  by_cases h : highFit score = true
  · rw [if_pos h, h]
  · rw [if_neg h]
    simp only [Bool.not_eq_true] at h
    exact h.symm
/-- Whatever branch the fit gate takes, the updated job row ends with the
CASE-computed status. -/
theorem jobFitGate_job_status (db : DB) (user : UserRow) (jid : String)
    (score : Int) (newAppId resumeText subj body recipient : String)
    (now : Int) :
    ∀ j ∈ (jobFitGate db user jid score newAppId resumeText subj body
      recipient now).db.jobs, j.jobId = jid → j.status = saveFitStatus score := by
  have hjobs : (jobFitGate db user jid score newAppId resumeText subj body
      recipient now).db.jobs = (saveFit db jid score).jobs := by
    simp only [jobFitGate]
    by_cases h : highFit score = true
    · rw [if_pos h]
      exact tailorAndGate_jobs (saveFit db jid score) user jid newAppId
        resumeText subj body recipient now
    · rw [if_neg h]
  intro j hj hid
  rw [hjobs] at hj
  exact saveFit_jobs_status db jid score j hj hid
/-- C4.  The fit gate's threshold is inclusive at 75: for every validated
fit analysis (a numeric score in [0, 100], rounded as JavaScript
`Math.round` does), the run enters the Tailoring Module iff the rounded
score is ≥ 75, the updated job row reads `ANALYZED` iff the rounded score
is ≥ 75, a score of 74 terminates on the low-fit branch with a low-fit
audit record and `LOW_FIT` status, and a score of 75 enters tailoring with
`ANALYZED` status. -/
theorem fit_gate_inclusive_threshold (q : ℚ) (db : DB) (user : UserRow)
    (jid newAppId resumeText subj body recipient : String) (now : Int)
    (hlo : 0 ≤ q) (hhi : q ≤ 100) :
    validateFit q = Except.ok (jsRound q) ∧
    ((jobFitGate db user jid (jsRound q) newAppId resumeText subj body
      recipient now).enteredTailoring = true ↔ 75 ≤ jsRound q) ∧
    (∀ j ∈ (jobFitGate db user jid (jsRound q) newAppId resumeText subj body
      recipient now).db.jobs, j.jobId = jid →
        (j.status = "ANALYZED" ↔ 75 ≤ jsRound q)) ∧
    ((jobFitGate db user jid 74 newAppId resumeText subj body recipient
        now).enteredTailoring = false ∧
      (jobFitGate db user jid 74 newAppId resumeText subj body recipient
        now).response = Except.ok ⟨"low_fit", none, none, some 74, none⟩ ∧
      (jobFitGate db user jid 74 newAppId resumeText subj body recipient
        now).db.auditLog = db.auditLog ++
          [⟨user.userId, "job_analysis", "SUCCESS", "low_fit"⟩] ∧
      ∀ j ∈ (jobFitGate db user jid 74 newAppId resumeText subj body
        recipient now).db.jobs, j.jobId = jid → j.status = "LOW_FIT") ∧
    ((jobFitGate db user jid 75 newAppId resumeText subj body recipient
        now).enteredTailoring = true ∧
      ∀ j ∈ (jobFitGate db user jid 75 newAppId resumeText subj body
        recipient now).db.jobs, j.jobId = jid → j.status = "ANALYZED") := by
  refine ⟨?_, ?_, ?_, ⟨?_, ?_, ?_, ?_⟩, ?_, ?_⟩
  · rw [validateFit, if_neg]
    push_neg
    exact ⟨hlo, hhi⟩
  · rw [jobFitGate_enteredTailoring]
    simp [highFit]
  · intro j hj hid
    have := jobFitGate_job_status db user jid (jsRound q) newAppId resumeText
      subj body recipient now j hj hid
    rw [this, saveFitStatus]
    split_ifs with h <;> simp [h]
  · rw [jobFitGate_enteredTailoring]; decide
  · simp [jobFitGate, highFit, saveFit]
  · simp [jobFitGate, highFit, saveFit]
  · intro j hj hid
    have := jobFitGate_job_status db user jid 74 newAppId resumeText
      subj body recipient now j hj hid
    rw [this]; decide
  · rw [jobFitGate_enteredTailoring]; decide
  · intro j hj hid
    have := jobFitGate_job_status db user jid 75 newAppId resumeText
      subj body recipient now j hj hid
    rw [this]; decide
/-- Witness for C4: the scores 74 and 75 on a concrete database holding
the analyzed job. -/
theorem fit_gate_inclusive_threshold_witness :
    ((jobFitGate ⟨[], [⟨"j1", none, "SCRAPED"⟩], [], [], [], []⟩
        ⟨"u1", "DRAFT", none, none, none, "", ""⟩ "j1" 74 "a1" "rt" "s" "b" "hr"
        0).enteredTailoring = false) ∧
    ((jobFitGate ⟨[], [⟨"j1", none, "SCRAPED"⟩], [], [], [], []⟩
        ⟨"u1", "DRAFT", none, none, none, "", ""⟩ "j1" 75 "a1" "rt" "s" "b" "hr"
        0).enteredTailoring = true) := by
  have h := fit_gate_inclusive_threshold 74 ⟨[], [⟨"j1", none, "SCRAPED"⟩],
    [], [], [], []⟩ ⟨"u1", "DRAFT", none, none, none, "", ""⟩ "j1" "a1" "rt" "s" "b"
    "hr" 0 (by norm_num) (by norm_num)
  exact ⟨h.2.2.2.1.1, h.2.2.2.2.1⟩
/-- C5.  A tenant in DRAFT mode whose analyze_job run scores at or above
the fit threshold ends with the upserted Application in `PENDING_REVIEW`,
an unchanged dispatch log (no Dispatch Log row created), and the
`draft_saved` response envelope carrying the application id; and the
auto-send gate routes into the Email Dispatch Module exactly for
`email_mode = AUTO`. -/
theorem draft_mode_pending_review (db : DB) (user : UserRow)
    (jid newAppId resumeText subj body recipient : String) (now : Int)
    (s : Int) (hmode : user.emailMode = "DRAFT") (hs : 75 ≤ s) :
    (jobFitGate db user jid s newAppId resumeText subj body recipient
        now).response = Except.ok
      ⟨"draft_saved", some "email_draft",
        some (upsertApplication (saveFit db jid s) user.userId jid
          resumeText user.emailMode newAppId).2, none, none⟩ ∧
    (∃ a ∈ (jobFitGate db user jid s newAppId resumeText subj body recipient
        now).db.applications,
      a.appId = (upsertApplication (saveFit db jid s) user.userId jid
        resumeText user.emailMode newAppId).2 ∧
      a.status = "PENDING_REVIEW") ∧
    (jobFitGate db user jid s newAppId resumeText subj body recipient
      now).db.dispatchLog = db.dispatchLog ∧
    (jobFitGate db user jid s newAppId resumeText subj body recipient
      now).enteredDispatch = false ∧
    (∀ (db' : DB) (user' : UserRow)
        (jid' newAppId' rt' sj' bd' rc' : String) (now' : Int),
      (tailorAndGate db' user' jid' newAppId' rt' sj' bd' rc'
        now').enteredDispatch = (user'.emailMode == "AUTO")) := by
  have hfit : highFit s = true := by
    simp only [highFit, ge_iff_le, decide_eq_true_eq]
    omega
  have hb : (user.emailMode == "AUTO") = false := by
    simp [hmode]
  have hbneg : ¬((user.emailMode == "AUTO") = true) := by
    simp [hb]
  have hPR : appUpsertStatus user.emailMode = "PENDING_REVIEW" := by
    rw [appUpsertStatus, if_neg hbneg]
  simp only [jobFitGate]
  rw [if_pos hfit]
  simp only [tailorAndGate]
  rw [if_neg hbneg]
  refine ⟨rfl, ?_, ?_, rfl, fun db' user' jid' newAppId' rt' sj' bd' rc'
    now' => tailorAndGate_enteredDispatch db' user' jid' newAppId' rt' sj'
      bd' rc' now'⟩
  · obtain ⟨a0, ha0, hid, hst⟩ := upsertApplication_result (saveFit db jid s)
      user.userId jid resumeText user.emailMode newAppId
    obtain ⟨b, hbmem, hbid, hbst⟩ := saveEmailDraft_preserves
      (upsertApplication (saveFit db jid s) user.userId jid resumeText
        user.emailMode newAppId).1
      (upsertApplication (saveFit db jid s) user.userId jid resumeText
        user.emailMode newAppId).2 subj body a0 ha0
    exact ⟨b, hbmem, hbid.trans hid, hbst.trans (hst.trans hPR)⟩
  · have hsf : (saveFit db jid s).dispatchLog = db.dispatchLog := rfl
    have hup := (upsertApplication_frame (saveFit db jid s) user.userId jid
      resumeText user.emailMode newAppId).2.2.1
    simp only [saveEmailDraft]
    rw [hup, hsf]
/-- Witness for C5: the spec's end-to-end scenario — DRAFT tenant, score
82, empty initial database. -/
theorem draft_mode_pending_review_witness :
    (jobFitGate ⟨[], [⟨"j1", none, "SCRAPED"⟩], [], [], [], []⟩
        ⟨"u1", "DRAFT", none, none, none, "", ""⟩ "j1" 82 "a1" "rt" "s" "b" "hr"
        0).response = Except.ok
      ⟨"draft_saved", some "email_draft", some "a1", none, none⟩ ∧
    (jobFitGate ⟨[], [⟨"j1", none, "SCRAPED"⟩], [], [], [], []⟩
        ⟨"u1", "DRAFT", none, none, none, "", ""⟩ "j1" 82 "a1" "rt" "s" "b" "hr"
        0).db.dispatchLog = [] := by
  have h := draft_mode_pending_review ⟨[], [⟨"j1", none, "SCRAPED"⟩],
    [], [], [], []⟩ ⟨"u1", "DRAFT", none, none, none, "", ""⟩ "j1" "a1" "rt" "s" "b"
    "hr" 0 82 rfl (by omega)
  exact ⟨h.1, h.2.2.1⟩
/-- C6 counterexample.  A normalization output whose `required_skills` is
a string passes `Validate - Job Schema`: the field is silently replaced by
`[]` and the output accepted, not rejected with a schema error. -/
theorem job_schema_nonarray_accepted_counterexample :
    isArrayF (jobJsonNonArraySkills.getField "required_skills") = false ∧
    validateJobSchema jobJsonNonArraySkills =
      Except.ok (jobJsonNonArraySkills.setField "required_skills"
        (Json.arr [])) :=
  ⟨rfl, rfl⟩
/-- C6 amended.  `Validate - Job Schema` aborts on a missing/falsy
`company_name` or `job_title`, but an output whose `required_skills` is
not an array is accepted with the field defaulted to the empty array. -/
theorem job_schema_missing_fields_abort_nonarray_defaulted (parsed : Json)
    (hcn : jsTruthy (parsed.getField "company_name") = true)
    (hjt : jsTruthy (parsed.getField "job_title") = true) :
    (isArrayF (parsed.getField "required_skills") = false →
      validateJobSchema parsed =
        Except.ok (parsed.setField "required_skills" (Json.arr []))) ∧
    (∀ p : Json, jsTruthy (p.getField "company_name") = false →
      validateJobSchema p = Except.error "Missing company_name") ∧
    (∀ p : Json, jsTruthy (p.getField "company_name") = true →
      jsTruthy (p.getField "job_title") = false →
      validateJobSchema p = Except.error "Missing job_title") := by
  refine ⟨?_, ?_, ?_⟩
  · intro hrs
    rw [validateJobSchema]
    simp [hcn, hjt, hrs]
  · intro p hp
    rw [validateJobSchema]
    simp [hp]
  · intro p hp1 hp2
    rw [validateJobSchema]
    simp [hp1, hp2]
/-- Witness for the amended C6: the concrete non-array-skills output. -/
theorem job_schema_missing_fields_abort_nonarray_defaulted_witness :
    validateJobSchema jobJsonNonArraySkills =
      Except.ok (jobJsonNonArraySkills.setField "required_skills"
        (Json.arr [])) :=
  (job_schema_missing_fields_abort_nonarray_defaulted jobJsonNonArraySkills
    rfl rfl).1 rfl
/-- C7.  `Validate - Resume Text` rejects a 99-character extraction and
accepts a 100-character one; and whenever the extraction reports an error
(`success = false`) or its character count is below 100, the Resume
Ingestion pipeline aborts with the thrown error and performs no write to
the `users` table. -/
theorem resume_min_chars_gate (db : DB) (uid filePath : String)
    (resp : ExtractEnvelope) (llmOut : Json)
    (h : resp.success = false ∨ resp.charCount < 100) :
    (∃ e, (resumeIngestion db uid filePath resp llmOut).1 =
      Except.error e) ∧
    (resumeIngestion db uid filePath resp llmOut).2.users = db.users ∧
    validateResumeText ⟨true, "/data/r.pdf", 1, 99,
        String.mk (List.replicate 99 'a'), none⟩ =
      Except.error "Resume text too short: 99" ∧
    validateResumeText ⟨true, "/data/r.pdf", 1, 100,
        String.mk (List.replicate 100 'a'), none⟩ =
      Except.ok ⟨true, "/data/r.pdf", 1, 100,
        String.mk (List.replicate 100 'a'), none⟩ := by
  have hv : ∃ e, validateResumeText resp = Except.error e := by
    by_cases hs : resp.success = true
    · have hc : resp.charCount < 100 := by
        rcases h with h | h
        · rw [hs] at h; cases h
        · exact h
      exact ⟨"Resume text too short: " ++ toString resp.charCount,
        by rw [validateResumeText]; simp [hs, hc]⟩
    · have hf : resp.success = false := Bool.eq_false_iff.mpr hs
      exact ⟨"Resume extraction failed: " ++ jsOrString resp.error "unknown",
        by rw [validateResumeText]; simp [hf]⟩
  obtain ⟨e, he⟩ := hv
  refine ⟨⟨e, ?_⟩, ?_, rfl, rfl⟩
  · simp only [resumeIngestion, he]
  · simp only [resumeIngestion, he]
/-- Witness for C7: a 99-character extraction on a concrete database. -/
theorem resume_min_chars_gate_witness :
    (∃ e, (resumeIngestion ⟨[], [], [], [], [], []⟩ "u1" "/data/r.pdf"
      ⟨true, "/data/r.pdf", 1, 99, String.mk (List.replicate 99 'a'), none⟩
      (Json.obj [])).1 = Except.error e) ∧
    (resumeIngestion ⟨[], [], [], [], [], []⟩ "u1" "/data/r.pdf"
      ⟨true, "/data/r.pdf", 1, 99, String.mk (List.replicate 99 'a'), none⟩
      (Json.obj [])).2.users = [] := by
  have h := resume_min_chars_gate ⟨[], [], [], [], [], []⟩ "u1" "/data/r.pdf"
    ⟨true, "/data/r.pdf", 1, 99, String.mk (List.replicate 99 'a'), none⟩
    (Json.obj []) (Or.inr (by decide))
  exact ⟨h.1, h.2.1⟩
/-- C8.  With a stored (truthy) API-key hash, a supplied key different
from it makes `Validate - User Auth` throw the invalid-key error, so the
router is never reached; with no stored key (NULL or empty), any supplied
key is accepted and the request proceeds to the router. -/
theorem auth_invalid_key_and_bootstrap (u : UserRow) (key action : String)
    (huid : (u.userId == "") = false) :
    (∀ h : String, u.apiKeyHash = some h → (h == "") = false → key ≠ h →
      authEntry (some u) key action =
        Except.error ("Invalid API key for user " ++ u.userId)) ∧
    (jsTruthyStr u.apiKeyHash = false →
      authEntry (some u) key action = Except.ok (routeAction action)) := by
  constructor
  · intro h hh hne hkey
    have ht : jsTruthyStr u.apiKeyHash = true := by
      simp only [jsTruthyStr, hh, bne_iff_ne, ne_eq]
      simpa using hne
    rw [authEntry]
    simp only [validateUserAuth]
    rw [if_neg (by simp [huid]), if_neg (by simp [ht]),
      if_pos (by simp only [hh, Option.getD_some, bne_iff_ne, ne_eq,
        decide_eq_true_eq]; exact hkey)]
  · intro hfalse
    rw [authEntry]
    simp only [validateUserAuth]
    rw [if_neg (by simp [huid]), if_pos (by simp [hfalse])]
/-- Witness for C8: a wrong key against a stored hash fails; any key is
accepted by a tenant with no stored hash. -/
theorem auth_invalid_key_and_bootstrap_witness :
    authEntry (some ⟨"u1", "AUTO", none, none, some "storedhash", "", ""⟩)
      "wrongkey" "analyze_job" =
        Except.error "Invalid API key for user u1" ∧
    authEntry (some ⟨"u1", "AUTO", none, none, none, "", ""⟩)
      "anykey" "analyze_job" = Except.ok RouteTarget.analyzeJob := by
  have h1 := (auth_invalid_key_and_bootstrap
    ⟨"u1", "AUTO", none, none, some "storedhash", "", ""⟩
    "wrongkey" "analyze_job" (by decide)).1 "storedhash" rfl (by decide)
    (by decide)
  have h2 := (auth_invalid_key_and_bootstrap
    ⟨"u1", "AUTO", none, none, none, "", ""⟩
    "anykey" "analyze_job" (by decide)).2 (by decide)
  exact ⟨h1, h2⟩
/-- C9.  An inbound message whose (tenant, message-id) pair already exists
in the inbound log short-circuits to the SKIPPED envelope before the
classification stage: the completion-service classifier is never invoked
and the inbound log is unchanged (no second row). -/
theorem inbound_dedup_short_circuit (db : DB)
    (uid threadId messageId senderEmail emailBody : String)
    (cls : Classification)
    (hdup : ∃ r ∈ db.inboundLog, r.userId = uid ∧ r.messageId = messageId) :
    (inboundProcess db uid threadId messageId senderEmail emailBody
      cls).skippedResp =
        some ⟨"skipped", none, none, none, some "already_processed"⟩ ∧
    (inboundProcess db uid threadId messageId senderEmail emailBody
      cls).classifierCalls = 0 ∧
    (inboundProcess db uid threadId messageId senderEmail emailBody
      cls).routedTo = none ∧
    (inboundProcess db uid threadId messageId senderEmail emailBody
      cls).db.inboundLog = db.inboundLog := by
  have hb : inboundDup { db with auditLog := db.auditLog ++
      [⟨uid, "inbound_email", "STARTED", threadId⟩] } uid messageId
      = true := by
    rw [inboundDup, List.any_eq_true]
    obtain ⟨r, hr, h1, h2⟩ := hdup
    exact ⟨r, hr, by simp [h1, h2]⟩
  simp only [inboundProcess]
  rw [if_pos hb]
  exact ⟨rfl, rfl, rfl, rfl⟩
/-- Witness for C9: a concrete already-logged (tenant, message-id). -/
theorem inbound_dedup_short_circuit_witness :
    (inboundProcess ⟨[], [], [], [],
        [⟨"u1", "t1", "m1", "sender", "OTHER"⟩], []⟩
      "u1" "t1" "m1" "sender" "hello" ⟨"OTHER"⟩).classifierCalls = 0 ∧
    (inboundProcess ⟨[], [], [], [],
        [⟨"u1", "t1", "m1", "sender", "OTHER"⟩], []⟩
      "u1" "t1" "m1" "sender" "hello" ⟨"OTHER"⟩).db.inboundLog =
        [⟨"u1", "t1", "m1", "sender", "OTHER"⟩] := by
  have h := inbound_dedup_short_circuit
    ⟨[], [], [], [], [⟨"u1", "t1", "m1", "sender", "OTHER"⟩], []⟩
    "u1" "t1" "m1" "sender" "hello" ⟨"OTHER"⟩
    ⟨⟨"u1", "t1", "m1", "sender", "OTHER"⟩, by simp, rfl, rfl⟩
  exact ⟨h.2.1, h.2.2.2⟩
/-- Text accepted by the extractor is at least `MIN_CHARS = 100`
characters long. -/
theorem extract_text_ok_length (f : PdfFile) (raw : String)
    (h : extract_text_from_pdf f = Except.ok raw) : 100 ≤ raw.length := by
  simp only [extract_text_from_pdf] at h
  split_ifs at h with h1 h2 h3 h4
  injection h with h5
  subst h5
  omega
/-- C10.  An `/extract-resume` response with `success = true` carries a
`raw_text` of at least 100 characters and a `char_count` equal to its
length; a `FileNotFoundError`/`ValueError` from the extractor yields a
normal envelope with `success = false`, zeroed data fields and a non-null
error message (not an HTTP error — the endpoint catches exactly these
exceptions). -/
theorem extract_resume_envelope (f : PdfFile) :
    ((extract_resume f).success = true →
      (extract_resume f).charCount = (extract_resume f).rawText.length ∧
      100 ≤ (extract_resume f).rawText.length) ∧
    ((extract_resume f).success = false →
      (extract_resume f).charCount = 0 ∧
      (extract_resume f).rawText = "" ∧
      (extract_resume f).pageCount = 0 ∧
      (extract_resume f).error ≠ none) := by
  cases hx : extract_text_from_pdf f with
  | ok raw =>
    constructor
    · intro _
      refine ⟨by simp [extract_resume, hx], ?_⟩
      have := extract_text_ok_length f raw hx
      simpa [extract_resume, hx] using this
    · intro hfalse
      exfalso
      simp [extract_resume, hx] at hfalse
  | error e =>
    constructor
    · intro htrue
      exfalso
      simp [extract_resume, hx] at htrue
    · intro _
      refine ⟨?_, ?_, ?_, ?_⟩ <;> simp [extract_resume, hx]
set_option maxRecDepth 4000 in
/-- Witness for C10: the concrete 120-character one-page PDF. -/
theorem extract_resume_envelope_witness :
    (extract_resume samplePdf).charCount =
      (extract_resume samplePdf).rawText.length ∧
    100 ≤ (extract_resume samplePdf).rawText.length :=
  (extract_resume_envelope samplePdf).1 (by decide)

end JobAutomation
